import Mathlib

/-!
Verification development for the EMA signals bot
(`ema_signals_bot.py` and the modular `src/` variant).

The signal-detection core is shallowly embedded: closing prices are
rationals (`ℚ`), a pandas column is a `List ℚ`, a column with NaN holes
(RSI and other rolling statistics) is a `List (Option ℚ)`, and the
dataframe that the evaluators receive — and extend with indicator
columns — is the `DataFrame` structure below.  `iloc[-1]` and
`iloc[-2]` become `getD (n - 1)` / `getD (n - 2)` on lists of length
`n`.  Exceptions are embedded with `Except`; the Telegram signals are
the literal strings the Python code returns.
-/

/-- Tail of pandas `ewm(span=period, adjust=False).mean()` after the
seed: each output is `a * x + (1 - a) * prev` where `prev` is the
previous output. -/
def emaAux (a : ℚ) : ℚ → List ℚ → List ℚ
  | _, [] => []
  | prev, x :: xs =>
    let y := a * x + (1 - a) * prev
    y :: emaAux a y xs

/-- `calc_ema` (`src/strategies.py`):
`df['close'].ewm(span=period, adjust=False).mean()` — smoothing factor
`2 / (period + 1)`, seeded with the first close, no warm-up gap. -/
def calc_ema (p : ℕ) (closes : List ℚ) : List ℚ :=
  match closes with
  | [] => []
  | x :: xs => x :: emaAux (2 / (p + 1)) x xs

/-- The error raised by the monolithic `calc_ema` when `period <= 0`
(`ValueError('Период EMA должен быть положительным')`), called
`InvalidParameter` in the spec. -/
inductive CalcError where
  | invalidParameter
deriving DecidableEq

/-- `calc_ema` as in `ema_signals_bot.py` lines 229-233: an explicit
guard `if period <= 0: raise ValueError(...)` in front of the `ewm`
computation. -/
def calc_ema_checked (p : ℤ) (closes : List ℚ) : Except CalcError (List ℚ) :=
  if p ≤ 0 then Except.error CalcError.invalidParameter
  else Except.ok (calc_ema p.toNat closes)

/-- `df['close'].diff()`: entry 0 is NaN (`none`), entry `i > 0` is
`close[i] - close[i-1]`. -/
def deltaList (closes : List ℚ) : List (Option ℚ) :=
  (List.range closes.length).map fun i =>
    if i = 0 then none else some (closes.getD i 0 - closes.getD (i - 1) 0)

/-- `delta.clip(lower=0)`: the positive part of each delta; NaN stays NaN. -/
def gainList (closes : List ℚ) : List (Option ℚ) :=
  (deltaList closes).map (Option.map fun d => max d 0)

/-- `-delta.clip(upper=0)`: the negative part of each delta; NaN stays NaN. -/
def lossList (closes : List ℚ) : List (Option ℚ) :=
  (deltaList closes).map (Option.map fun d => max (-d) 0)

/-- `series.rolling(window=p, min_periods=p).mean()`: entry `i` is the
mean of the trailing window of `p` entries ending at `i`, and is NaN
unless the window holds `p` observations that are all non-NaN. -/
def rollingMean (p : ℕ) (xs : List (Option ℚ)) : List (Option ℚ) :=
  (List.range xs.length).map fun i =>
    if p ≤ i + 1 ∧ ((List.range p).all fun k => (xs.getD (i + 1 - p + k) none).isSome) then
      some ((((List.range p).map fun k => (xs.getD (i + 1 - p + k) none).getD 0).sum) / p)
    else none

/-- `calc_rsi` (`src/strategies.py`): rolling means of gains and losses
over `period` bars, `rs = avg_gain / avg_loss.where(avg_loss != 0, 1e-10)`,
`rsi = 100 - 100 / (1 + rs)`; NaN wherever either rolling mean is NaN. -/
def calc_rsi (closes : List ℚ) (p : ℕ) : List (Option ℚ) :=
  let avg_gain := rollingMean p (gainList closes)
  let avg_loss := rollingMean p (lossList closes)
  (List.range closes.length).map fun i =>
    match avg_gain.getD i none, avg_loss.getD i none with
    | some g, some l => some (100 - 100 / (1 + g / (if l ≠ 0 then l else 1 / 10 ^ 10)))
    | _, _ => none

/-- Python `round(x, 4)`: rounding to 4 decimal places.  Every rounded
quantity in the verified claims is an exact multiple of `1 / 10000`,
where every reasonable tie-breaking convention agrees. -/
def round4 (x : ℚ) : ℚ := ((round (x * 10000) : ℤ) : ℚ) / 10000

/-- Python `direction.startswith('LONG')`. -/
def startsWithLONG (direction : String) : Bool :=
  "LONG".data.isPrefixOf direction.data

/-- `calc_oco_prices(direction, price, tp_perc, sl_perc)` with the
percentages passed explicitly (the body of the Python function). -/
def calc_oco_prices (direction : String) (price tp_perc sl_perc : ℚ) : ℚ × ℚ × ℚ :=
  if startsWithLONG direction then
    let tp_price := round4 (price * (1 + tp_perc / 100))
    let sl_trigger := round4 (price * (1 - sl_perc / 100))
    let sl_market := round4 (sl_trigger * 0.999)
    (tp_price, sl_trigger, sl_market)
  else
    let tp_price := round4 (price * (1 - tp_perc / 100))
    let sl_trigger := round4 (price * (1 + sl_perc / 100))
    let sl_market := round4 (sl_trigger * 1.001)
    (tp_price, sl_trigger, sl_market)

/-- The take-profit / stop-loss percentages: the pair of module globals
`TP_PERCENT` / `SL_PERCENT` of `ema_signals_bot.py`. -/
structure RuntimeParams where
  tp : ℚ
  sl : ℚ
deriving DecidableEq

/-- The runtime-parameter state of `ema_signals_bot.py`.  `globals` is
the current value of the module globals; `defaults` is the pair of
values captured by the default arguments
`def calc_oco_prices(direction, price, tp_perc=TP_PERCENT, sl_perc=SL_PERCENT)`
— Python evaluates default arguments once, when the `def` statement
runs, so `defaults` is fixed at module load. -/
structure ParamsState where
  globalsCell : RuntimeParams
  defaults : RuntimeParams
deriving DecidableEq

/-- Module load with initial percentages `tp0` / `sl0`: the globals and
the captured defaults start out equal. -/
def initParams (tp0 sl0 : ℚ) : ParamsState :=
  { globalsCell := { tp := tp0, sl := sl0 }, defaults := { tp := tp0, sl := sl0 } }

/-- `process_tp` (`ema_signals_bot.py` lines 328-342): a valid positive
input rebinds the module global `TP_PERCENT`; the captured default of
`calc_oco_prices` is untouched. -/
def applySetTp (st : ParamsState) (v : ℚ) : ParamsState :=
  if 0 < v then { st with globalsCell := { st.globalsCell with tp := v } } else st

/-- `process_sl` (`ema_signals_bot.py` lines 355-369): same for
`SL_PERCENT`. -/
def applySetSl (st : ParamsState) (v : ℚ) : ParamsState :=
  if 0 < v then { st with globalsCell := { st.globalsCell with sl := v } } else st

/-- Alert construction in `main` (`ema_signals_bot.py` lines 431, 440):
`calc_oco_prices(signal, price)` — no explicit percentages, so the
function runs with its captured default arguments. -/
def buildAlert (st : ParamsState) (direction : String) (price : ℚ) : ℚ × ℚ × ℚ :=
  calc_oco_prices direction price st.defaults.tp st.defaults.sl

/- Helper for evaluating `round4` on the exact-decimal values that
appear in the claims. -/

/-- When `x` is an exact multiple of `1 / 10000`, `round4` returns it
unchanged (as `n / 10000`). -/
theorem round4_int (n : ℤ) (x : ℚ) (h : x * 10000 = (n : ℚ)) :
    round4 x = (n : ℚ) / 10000 := by
  unfold round4
  rw [h, round_intCast]

/-- C9: for every series, `calc_ema` called with `period ≤ 0` fails with
`InvalidParameter`, and called with `period > 0` it succeeds (returning
the EMA series). -/
theorem ema_checked_period_validation (closes : List ℚ) (p : ℤ) :
    (p ≤ 0 → calc_ema_checked p closes = Except.error CalcError.invalidParameter) ∧
    (0 < p → calc_ema_checked p closes = Except.ok (calc_ema p.toNat closes)) := by
  constructor
  · intro h
    simp [calc_ema_checked, h]
  · intro h
    simp [calc_ema_checked, not_le.mpr h]

/-- Witness for C9: period `-1` is rejected, period `7` succeeds, on the
series `[1, 2]`. -/
theorem ema_checked_period_validation_witness :
    calc_ema_checked (-1) [1, 2] = Except.error CalcError.invalidParameter ∧
    calc_ema_checked 7 [1, 2] = Except.ok (calc_ema 7 [1, 2]) :=
  ⟨(ema_checked_period_validation [1, 2] (-1)).1 (by decide),
   (ema_checked_period_validation [1, 2] 7).2 (by decide)⟩

/-- Evaluation of the price calculator on the spec's LONG example. -/
theorem oco_eval_LONG_100_2_1 : calc_oco_prices "LONG" 100 2 1 = (102, 99, 98.901) := by
  have hd : startsWithLONG "LONG" = true := by decide
  have h1 : round4 (100 * (1 + (2 : ℚ) / 100)) = ((1020000 : ℤ) : ℚ) / 10000 :=
    round4_int _ _ (by norm_num)
  have h2 : round4 (100 * (1 - (1 : ℚ) / 100)) = ((990000 : ℤ) : ℚ) / 10000 :=
    round4_int _ _ (by norm_num)
  have h3 : round4 (((990000 : ℤ) : ℚ) / 10000 * 0.999) = ((989010 : ℤ) : ℚ) / 10000 :=
    round4_int _ _ (by norm_num)
  simp only [calc_oco_prices, hd, if_true, h1, h2, h3]
  norm_num

/-- Evaluation of the price calculator on the spec's SHORT example. -/
theorem oco_eval_SHORT_100_2_1 : calc_oco_prices "SHORT" 100 2 1 = (98, 101, 101.101) := by
  have hd : startsWithLONG "SHORT" = false := by decide
  have h1 : round4 (100 * (1 - (2 : ℚ) / 100)) = ((980000 : ℤ) : ℚ) / 10000 :=
    round4_int _ _ (by norm_num)
  have h2 : round4 (100 * (1 + (1 : ℚ) / 100)) = ((1010000 : ℤ) : ℚ) / 10000 :=
    round4_int _ _ (by norm_num)
  have h3 : round4 (((1010000 : ℤ) : ℚ) / 10000 * 1.001) = ((1011010 : ℤ) : ℚ) / 10000 :=
    round4_int _ _ (by norm_num)
  simp only [calc_oco_prices, hd, Bool.false_eq_true, if_false, h1, h2, h3]
  norm_num

/-- C5: the price calculator follows the LONG formulas whenever the
direction starts with "LONG" and the mirrored SHORT formulas otherwise
(each output rounded to 4 places, the market stop computed from the
rounded trigger), and on the spec's concrete inputs it returns
`(102, 99, 98.901)` for LONG and `(98, 101, 101.101)` for SHORT. -/
theorem oco_price_formulas (d : String) (price tp sl : ℚ) :
    (startsWithLONG d = true →
      calc_oco_prices d price tp sl =
        (round4 (price * (1 + tp / 100)), round4 (price * (1 - sl / 100)),
         round4 (round4 (price * (1 - sl / 100)) * 0.999))) ∧
    (startsWithLONG d = false →
      calc_oco_prices d price tp sl =
        (round4 (price * (1 - tp / 100)), round4 (price * (1 + sl / 100)),
         round4 (round4 (price * (1 + sl / 100)) * 1.001))) ∧
    calc_oco_prices "LONG" 100 2 1 = (102, 99, 98.901) ∧
    calc_oco_prices "SHORT" 100 2 1 = (98, 101, 101.101) :=
  ⟨fun h => by simp [calc_oco_prices, h], fun h => by simp [calc_oco_prices, h],
   oco_eval_LONG_100_2_1, oco_eval_SHORT_100_2_1⟩

/-- Witness for C5: the LONG branch of the characterization applied to
the concrete direction "LONG". -/
theorem oco_price_formulas_witness :
    calc_oco_prices "LONG" 100 2 1 =
      (round4 (100 * (1 + (2 : ℚ) / 100)), round4 (100 * (1 - (1 : ℚ) / 100)),
       round4 (round4 (100 * (1 - (1 : ℚ) / 100)) * 0.999)) :=
  (oco_price_formulas "LONG" 100 2 1).1 (by decide)

/-- C4 (code bug): after module load with TP 2% / SL 1%, a `/set_tp 3`
command rebinds the global `TP_PERCENT` to 3 — the handler reports
success — yet a LONG alert at price 100 still computes its prices from
the def-time default 2% (take-profit 102), not from the mutated 3%
(which would give take-profit 103): Python default arguments are bound
once, and `main` calls `calc_oco_prices` without explicit percentages. -/
theorem oco_params_default_binding_bug :
    (applySetTp (initParams 2 1) 3).globalsCell.tp = 3 ∧
    buildAlert (applySetTp (initParams 2 1) 3) "LONG" 100 = (102, 99, 98.901) ∧
    (buildAlert (applySetTp (initParams 2 1) 3) "LONG" 100).1 ≠
      round4 (100 * (1 + (3 : ℚ) / 100)) := by
  have hst : applySetTp (initParams 2 1) 3 = ⟨⟨3, 1⟩, ⟨2, 1⟩⟩ := by
    simp [applySetTp, initParams]
  have halert : buildAlert (applySetTp (initParams 2 1) 3) "LONG" 100 =
      calc_oco_prices "LONG" 100 2 1 := by
    rw [hst]; rfl
  have hval := oco_eval_LONG_100_2_1
  refine ⟨by rw [hst], by rw [halert, hval], ?_⟩
  rw [halert, hval]
  have h3 : round4 (100 * (1 + (3 : ℚ) / 100)) = ((1030000 : ℤ) : ℚ) / 10000 :=
    round4_int _ _ (by norm_num)
  rw [h3]
  norm_num

/-- The pandas DataFrame handed to the evaluators: the `close` column
plus the indicator columns the evaluators attach in place
(`df['ema7'] = ...` and friends); a column is `none` until assigned. -/
structure DataFrame where
  close : List ℚ
  ema7 : Option (List ℚ) := none
  ema30 : Option (List ℚ) := none
  ema9 : Option (List ℚ) := none
  ema20 : Option (List ℚ) := none
  rsi : Option (List (Option ℚ)) := none
deriving DecidableEq

/-- A freshly fetched OHLCV frame: only the close column is present. -/
def DataFrame.ofCloses (closes : List ℚ) : DataFrame :=
  { close := closes }

/-- `check_signal_ema7_30(df, limit)` (`src/strategies.py` lines 16-35)
as a state-passing function: the returned frame is the caller's frame,
extended with the `ema7` / `ema30` columns whenever the length guard
passes (the assignments run before any branch is taken). -/
def check_signal_ema7_30_df (df : DataFrame) (limit : ℕ) : Option String × DataFrame :=
  if df.close.length < limit then (none, df)
  else
    let ema7 := calc_ema 7 df.close
    let ema30 := calc_ema 30 df.close
    let df1 := { df with ema7 := some ema7, ema30 := some ema30 }
    let n := df.close.length
    if ema7.getD (n - 2) 0 < ema30.getD (n - 2) 0 ∧
       ema7.getD (n - 1) 0 > ema30.getD (n - 1) 0 ∧
       df.close.getD (n - 1) 0 > ema7.getD (n - 1) 0 ∧
       df.close.getD (n - 1) 0 > ema30.getD (n - 1) 0 then
      (some "LONG", df1)
    else if ema7.getD (n - 2) 0 > ema30.getD (n - 2) 0 ∧
       ema7.getD (n - 1) 0 < ema30.getD (n - 1) 0 ∧
       df.close.getD (n - 1) 0 < ema7.getD (n - 1) 0 ∧
       df.close.getD (n - 1) 0 < ema30.getD (n - 1) 0 then
      (some "SHORT", df1)
    else (none, df1)

/-- The crossover evaluator's returned value on a fresh frame. -/
def check_signal_ema7_30 (closes : List ℚ) (limit : ℕ) : Option String :=
  (check_signal_ema7_30_df (DataFrame.ofCloses closes) limit).1

/-- `check_signal_ema9_20_rsi(df, limit)` (`src/strategies.py` lines
37-59) as a state-passing function: attaches `ema9` / `ema20` / `rsi`,
then returns `None` if the RSI is NaN at either of the last two bars,
else checks the crossover-plus-RSI-band conditions. -/
def check_signal_ema9_20_rsi_df (df : DataFrame) (limit : ℕ) : Option String × DataFrame :=
  if df.close.length < limit then (none, df)
  else
    let ema9 := calc_ema 9 df.close
    let ema20 := calc_ema 20 df.close
    let rsi := calc_rsi df.close 14
    let df1 := { df with ema9 := some ema9, ema20 := some ema20, rsi := some rsi }
    let n := df.close.length
    match rsi.getD (n - 1) none, rsi.getD (n - 2) none with
    | some r1, some r2 =>
      if ema9.getD (n - 2) 0 < ema20.getD (n - 2) 0 ∧
         ema9.getD (n - 1) 0 > ema20.getD (n - 1) 0 ∧
         r2 > 55 ∧ r1 ≤ 55 then
        (some "LONG (RSI)", df1)
      else if ema9.getD (n - 2) 0 > ema20.getD (n - 2) 0 ∧
         ema9.getD (n - 1) 0 < ema20.getD (n - 1) 0 ∧
         r2 < 45 ∧ r1 ≥ 45 then
        (some "SHORT (RSI)", df1)
      else (none, df1)
    | _, _ => (none, df1)

/-- The momentum evaluator's returned value on a fresh frame. -/
def check_signal_ema9_20_rsi (closes : List ℚ) (limit : ℕ) : Option String :=
  (check_signal_ema9_20_rsi_df (DataFrame.ofCloses closes) limit).1

/-- One log line of `send_message` (`src/utils.py` lines 49-54). -/
inductive LogLine where
  | sent
  | sendFailed (e : String)
deriving DecidableEq

/-- `send_message`: the Telegram send is attempted inside
`try/except Exception`; a failure of the underlying send (modelled as
an `Except`) is logged and swallowed — the function always returns. -/
def send_message (outcome : Except String Unit) : LogLine :=
  match outcome with
  | Except.ok _ => LogLine.sent
  | Except.error e => LogLine.sendFailed e

/-- The per-(symbol, strategy) dispatch step of the polling loop
(`src/main.py` lines 162-170 / 172-185):
`if signal and last_signals.get(symbol) != signal:` send the alert and
then overwrite `last_signals[symbol] = signal`.  `stored` is the
state-store cell for this (symbol, strategy); `outcome` is what the
underlying Telegram send would do. -/
def dispatchSignal (stored computed : Option String) (outcome : Except String Unit) :
    List LogLine × Option String :=
  match computed with
  | none => ([], stored)
  | some s =>
    if stored = some s then ([], stored)
    else ([send_message outcome], some s)

/-- C1: a dispatch step notifies (and only then overwrites the stored
signal with the computed one) exactly when the computed signal is
non-none and differs from the stored value — an empty cell counts as
different; an equal computed signal, or a none result, changes nothing
and sends nothing; and after a none gap a repeat of the stored signal
is still suppressed. -/
theorem dispatch_transition_characterization
    (stored computed : Option String) (outcome : Except String Unit) :
    ((dispatchSignal stored computed outcome).1 ≠ [] ↔
      ∃ s, computed = some s ∧ stored ≠ some s) ∧
    ((∃ s, computed = some s ∧ stored ≠ some s) →
      (dispatchSignal stored computed outcome).2 = computed) ∧
    (computed = none → dispatchSignal stored computed outcome = ([], stored)) ∧
    (computed = stored → dispatchSignal stored computed outcome = ([], stored)) ∧
    (∀ s o2 o3, dispatchSignal (dispatchSignal (some s) none o2).2 (some s) o3
      = ([], some s)) := by
  refine ⟨?_, ?_, ?_, ?_, ?_⟩
  · cases computed with
    | none => simp [dispatchSignal]
    | some s =>
      by_cases h : stored = some s <;> simp [dispatchSignal, h]
  · rintro ⟨s, rfl, hne⟩
    simp [dispatchSignal, hne]
  · rintro rfl
    rfl
  · rintro rfl
    cases computed with
    | none => rfl
    | some t => simp [dispatchSignal]
  · intro s o2 o3
    simp [dispatchSignal]

/-- Witness for C1: an empty cell receiving "LONG" dispatches and
stores it. -/
theorem dispatch_transition_characterization_witness :
    (dispatchSignal none (some "LONG") (Except.ok ())).2 = some "LONG" :=
  (dispatch_transition_characterization none (some "LONG") (Except.ok ())).2.1
    ⟨"LONG", rfl, by decide⟩

/-- C10: a failing Telegram send is caught by `send_message` and turned
into a log line, never an exception; the stored signal is overwritten
with the new signal even when the send failed; and the resulting store
never depends on the send outcome at all. -/
theorem notifier_failure_isolated (stored : Option String) (s e : String) :
    send_message (Except.error e) = LogLine.sendFailed e ∧
    (stored ≠ some s →
      (dispatchSignal stored (some s) (Except.error e)).2 = some s) ∧
    (∀ (computed : Option String) (o o2 : Except String Unit),
      (dispatchSignal stored computed o).2 = (dispatchSignal stored computed o2).2) := by
  refine ⟨rfl, ?_, ?_⟩
  · intro hne
    simp [dispatchSignal, hne]
  · intro computed o o2
    cases computed with
    | none => rfl
    | some t =>
      by_cases h : stored = some t <;> simp [dispatchSignal, h]

/-- Witness for C10: a transition from an empty cell to "LONG" updates
the store even though the send raised. -/
theorem notifier_failure_isolated_witness :
    (dispatchSignal none (some "LONG") (Except.error "network down")).2 = some "LONG" :=
  (notifier_failure_isolated none "LONG" "network down").2.1 (by decide)

/-- The returned signal of the crossover evaluator depends only on the
close column: running it on any frame gives the same value as running
it on a fresh frame with the same closes. -/
theorem check7_fst_eq (df : DataFrame) (limit : ℕ) :
    (check_signal_ema7_30_df df limit).1 = check_signal_ema7_30 df.close limit := by
  unfold check_signal_ema7_30 check_signal_ema7_30_df DataFrame.ofCloses
  dsimp only
  split_ifs <;> rfl

/-- The returned signal of the momentum evaluator depends only on the
close column. -/
theorem check9_fst_eq (df : DataFrame) (limit : ℕ) :
    (check_signal_ema9_20_rsi_df df limit).1 = check_signal_ema9_20_rsi df.close limit := by
  unfold check_signal_ema9_20_rsi check_signal_ema9_20_rsi_df DataFrame.ofCloses
  dsimp only
  split_ifs with hl
  · rfl
  · generalize (calc_rsi df.close 14).getD (df.close.length - 1) none = r1
    generalize (calc_rsi df.close 14).getD (df.close.length - 2) none = r2
    cases r1 <;> cases r2 <;> dsimp only <;> first | rfl | (split_ifs <;> rfl)

/-- Counterexample to C8 as stated: the crossover evaluator does not
leave its input frame unchanged — on a frame long enough to pass the
length guard it attaches the `ema7` / `ema30` columns in place (and
`main` relies on the matching mutation of the momentum evaluator when
it reads `df['rsi']` after the call). -/
theorem evaluator_mutates_input_frame :
    (check_signal_ema7_30_df (DataFrame.ofCloses [10, 9, 20]) 3).2 ≠
      DataFrame.ofCloses [10, 9, 20] := by
  intro h
  have h7 : (check_signal_ema7_30_df (DataFrame.ofCloses [10, 9, 20]) 3).2.ema7 =
      some (calc_ema 7 [10, 9, 20]) := by
    unfold check_signal_ema7_30_df DataFrame.ofCloses
    dsimp only
    rw [if_neg (by norm_num)]
    split_ifs <;> rfl
  rw [h] at h7
  simp [DataFrame.ofCloses] at h7

/-- C8 amended: each evaluator never touches the signal state store and
never alters the close column; its returned signal is a function of the
close column alone; but it does extend the input frame with its
indicator columns, and that frame mutation is (with the returned value)
its whole effect. -/
theorem evaluator_frame_effects (df : DataFrame) (limit : ℕ) :
    (check_signal_ema7_30_df df limit).2.close = df.close ∧
    (check_signal_ema7_30_df df limit).1 = check_signal_ema7_30 df.close limit ∧
    (check_signal_ema9_20_rsi_df df limit).2.close = df.close ∧
    (check_signal_ema9_20_rsi_df df limit).1 = check_signal_ema9_20_rsi df.close limit := by
  refine ⟨?_, check7_fst_eq df limit, ?_, check9_fst_eq df limit⟩
  · unfold check_signal_ema7_30_df
    dsimp only
    split_ifs <;> rfl
  · unfold check_signal_ema9_20_rsi_df
    dsimp only
    split_ifs with hl
    · rfl
    · generalize (calc_rsi df.close 14).getD (df.close.length - 1) none = r1
      generalize (calc_rsi df.close 14).getD (df.close.length - 2) none = r2
      cases r1 <;> cases r2 <;> dsimp only <;> first | rfl | (split_ifs <;> rfl)

/-- `emaAux` preserves length. -/
theorem emaAux_length (a prev : ℚ) (xs : List ℚ) :
    (emaAux a prev xs).length = xs.length := by
  induction xs generalizing prev with
  | nil => rfl
  | cons x xs ih => simp [emaAux, ih]

/-- Each entry of `emaAux a prev xs` is `a` times the matching input
plus `1 - a` times the previous output (`prev` for the first entry). -/
theorem emaAux_getD (a : ℚ) (prev : ℚ) (xs : List ℚ) (i : ℕ) (h : i < xs.length) :
    (emaAux a prev xs).getD i 0 =
      a * xs.getD i 0 + (1 - a) * ((prev :: emaAux a prev xs).getD i 0) := by
  induction xs generalizing prev i with
  | nil => simp at h
  | cons x xs ih =>
    cases i with
    | zero => simp [emaAux]
    | succ j =>
      have hj : j < xs.length := by simpa using h
      simpa [emaAux] using ih (a * x + (1 - a) * prev) j hj

/-- C6: for a non-empty close series and positive period, the EMA
output has the input's length, starts at the first close, and satisfies
the recurrence `ema[i+1] = a * close[i+1] + (1 - a) * ema[i]` with
`a = 2 / (period + 1)` — every index is defined, no warm-up gap. -/
theorem ema_length_seed_recurrence (closes : List ℚ) (p : ℕ)
    (hne : closes ≠ []) (hp : 0 < p) :
    (calc_ema p closes).length = closes.length ∧
    (calc_ema p closes).getD 0 0 = closes.getD 0 0 ∧
    ∀ i, i + 1 < closes.length →
      (calc_ema p closes).getD (i + 1) 0 =
        2 / ((p : ℚ) + 1) * closes.getD (i + 1) 0 +
          (1 - 2 / ((p : ℚ) + 1)) * (calc_ema p closes).getD i 0 := by
  match closes, hne with
  | x :: xs, _ =>
    refine ⟨by simp [calc_ema, emaAux_length], by simp [calc_ema], ?_⟩
    intro i hi
    have hx : i < xs.length := by simpa using hi
    simpa only [calc_ema, List.getD_cons_succ] using emaAux_getD (2 / ((p : ℚ) + 1)) x xs i hx

/-- Witness for C6: the EMA(7) of `[10, 9, 20]` keeps the length, seeds
with 10 and obeys the recurrence at the last index. -/
theorem ema_length_seed_recurrence_witness :
    (calc_ema 7 [10, 9, 20]).length = ([10, 9, 20] : List ℚ).length ∧
    (calc_ema 7 [10, 9, 20]).getD 0 0 = ([10, 9, 20] : List ℚ).getD 0 0 ∧
    (calc_ema 7 [10, 9, 20]).getD (1 + 1) 0 =
      2 / (((7 : ℕ) : ℚ) + 1) * ([10, 9, 20] : List ℚ).getD (1 + 1) 0 +
        (1 - 2 / (((7 : ℕ) : ℚ) + 1)) * (calc_ema 7 [10, 9, 20]).getD 1 0 := by
  have t := ema_length_seed_recurrence [10, 9, 20] 7 (by simp) (by norm_num)
  exact ⟨t.1, t.2.1, t.2.2 1 (by norm_num)⟩

/-- Entry `i` of a map over `List.range n`, for `i < n`. -/
theorem getD_range_map {α : Type} (f : ℕ → α) (n i : ℕ) (d : α) (h : i < n) :
    ((List.range n).map f).getD i d = f i := by
  rw [List.getD_eq_getElem?_getD, List.getElem?_map, List.getElem?_range h]
  rfl

/-- `gainList` has the input's length. -/
theorem gainList_length (closes : List ℚ) : (gainList closes).length = closes.length := by
  simp [gainList, deltaList]

/-- `lossList` has the input's length. -/
theorem lossList_length (closes : List ℚ) : (lossList closes).length = closes.length := by
  simp [lossList, deltaList]

/-- A gain entry is non-NaN exactly away from index 0 (where `diff` is
NaN). -/
theorem gainList_isSome (closes : List ℚ) (i : ℕ) (h : i < closes.length) :
    ((gainList closes).getD i none).isSome = true ↔ i ≠ 0 := by
  unfold gainList deltaList
  rw [List.getD_eq_getElem?_getD, List.getElem?_map, List.getElem?_map, List.getElem?_range h]
  by_cases h0 : i = 0 <;> simp [h0]

/-- A loss entry is non-NaN exactly away from index 0. -/
theorem lossList_isSome (closes : List ℚ) (i : ℕ) (h : i < closes.length) :
    ((lossList closes).getD i none).isSome = true ↔ i ≠ 0 := by
  unfold lossList deltaList
  rw [List.getD_eq_getElem?_getD, List.getElem?_map, List.getElem?_map, List.getElem?_range h]
  by_cases h0 : i = 0 <;> simp [h0]

/-- Entry `i` of a rolling mean, unfolded. -/
theorem rollingMean_getD (p : ℕ) (xs : List (Option ℚ)) (i : ℕ) (h : i < xs.length) :
    (rollingMean p xs).getD i none =
      if p ≤ i + 1 ∧ ((List.range p).all fun k => (xs.getD (i + 1 - p + k) none).isSome) then
        some ((((List.range p).map fun k => (xs.getD (i + 1 - p + k) none).getD 0).sum) / p)
      else none := by
  unfold rollingMean
  exact getD_range_map _ _ i none h

/-- A rolling-mean entry is non-NaN exactly when the window is full and
free of NaN. -/
theorem rollingMean_isSome (p : ℕ) (xs : List (Option ℚ)) (i : ℕ) (h : i < xs.length) :
    ((rollingMean p xs).getD i none).isSome = true ↔
      (p ≤ i + 1 ∧ ∀ k, k < p → ((xs.getD (i + 1 - p + k) none).isSome = true)) := by
  rw [rollingMean_getD p xs i h]
  split_ifs with hc
  · simp only [Option.isSome_some, true_iff]
    exact ⟨hc.1, fun k hk => by
      have := List.all_eq_true.mp hc.2 k (List.mem_range.mpr hk)
      simpa using this⟩
  · simp only [Option.isSome_none, Bool.false_eq_true, false_iff]
    rintro ⟨h1, h2⟩
    exact hc ⟨h1, List.all_eq_true.mpr fun k hk => by
      simpa using h2 k (List.mem_range.mp hk)⟩

/-- The rolling mean of the gains is defined exactly from index `p`
onward: the window must both be full and avoid the NaN at index 0. -/
theorem rollingMean_gain_isSome (closes : List ℚ) (p i : ℕ) (h : i < closes.length) :
    ((rollingMean p (gainList closes)).getD i none).isSome = true ↔ p ≤ i := by
  have hlen : i < (gainList closes).length := by rwa [gainList_length]
  rw [rollingMean_isSome p _ i hlen]
  constructor
  · rintro ⟨h1, h2⟩
    by_contra hlt
    push_neg at hlt
    have hp : p = i + 1 := by omega
    have h0 := h2 0 (by omega)
    rw [hp] at h0
    simp only [Nat.sub_self, Nat.add_zero] at h0
    have := (gainList_isSome closes 0 (by omega)).mp (by simpa using h0)
    exact this rfl
  · intro hpi
    refine ⟨by omega, fun k hk => ?_⟩
    exact (gainList_isSome closes _ (by omega)).mpr (by omega)

/-- Same for the losses. -/
theorem rollingMean_loss_isSome (closes : List ℚ) (p i : ℕ) (h : i < closes.length) :
    ((rollingMean p (lossList closes)).getD i none).isSome = true ↔ p ≤ i := by
  have hlen : i < (lossList closes).length := by rwa [lossList_length]
  rw [rollingMean_isSome p _ i hlen]
  constructor
  · rintro ⟨h1, h2⟩
    by_contra hlt
    push_neg at hlt
    have hp : p = i + 1 := by omega
    have h0 := h2 0 (by omega)
    rw [hp] at h0
    simp only [Nat.sub_self, Nat.add_zero] at h0
    have := (lossList_isSome closes 0 (by omega)).mp (by simpa using h0)
    exact this rfl
  · intro hpi
    refine ⟨by omega, fun k hk => ?_⟩
    exact (lossList_isSome closes _ (by omega)).mpr (by omega)

/-- Entry `i` of `calc_rsi`, unfolded to the two rolling means. -/
theorem calc_rsi_getD (closes : List ℚ) (p i : ℕ) (h : i < closes.length) :
    (calc_rsi closes p).getD i none =
      match (rollingMean p (gainList closes)).getD i none,
            (rollingMean p (lossList closes)).getD i none with
      | some g, some l => some (100 - 100 / (1 + g / (if l ≠ 0 then l else 1 / 10 ^ 10)))
      | _, _ => none := by
  unfold calc_rsi
  exact getD_range_map _ _ i none h

/-- C7: for `period > 0` and a series longer than `period`, the RSI
column has the series' length and is NaN at exactly the first `period`
indices — defined at every index from `period` onward. -/
theorem rsi_warmup_gap (closes : List ℚ) (p : ℕ) (hp : 0 < p)
    (hlen : p < closes.length) :
    (calc_rsi closes p).length = closes.length ∧
    ∀ i, i < closes.length →
      (((calc_rsi closes p).getD i none).isSome = true ↔ p ≤ i) := by
  refine ⟨by simp [calc_rsi], ?_⟩
  intro i hi
  rw [calc_rsi_getD closes p i hi]
  rcases hg : (rollingMean p (gainList closes)).getD i none with _ | g
  · have := rollingMean_gain_isSome closes p i hi
    rw [hg] at this
    simp only [Option.isSome_none, Bool.false_eq_true, false_iff] at this ⊢
    exact this
  · rcases hl : (rollingMean p (lossList closes)).getD i none with _ | l
    · have := rollingMean_loss_isSome closes p i hi
      rw [hl] at this
      simp only [Option.isSome_none, Bool.false_eq_true, false_iff] at this ⊢
      exact this
    · have := rollingMean_gain_isSome closes p i hi
      rw [hg] at this
      simp only [Option.isSome_some, true_iff] at this ⊢
      exact this

/-- Witness for C7: with period 2 on `[1, 2, 3, 4]`, the RSI is NaN at
index 1 and defined at index 2. -/
theorem rsi_warmup_gap_witness :
    ((calc_rsi [1, 2, 3, 4] 2).getD 1 none).isSome = false ∧
    ((calc_rsi [1, 2, 3, 4] 2).getD 2 none).isSome = true := by
  have t := rsi_warmup_gap [1, 2, 3, 4] 2 (by norm_num) (by simp)
  constructor
  · have h1 := t.2 1 (by simp)
    exact Bool.eq_false_iff.mpr fun hh => by
      have := h1.mp hh
      omega
  · exact (t.2 2 (by simp)).mpr (by norm_num)

/-- C2: on a series at least as long as the (≥ 2) minimum required
length, the crossover evaluator answers LONG exactly on an upward
EMA7/EMA30 cross with the close above both lines at the last bar, SHORT
exactly on the mirror-image configuration, and no signal in every other
configuration of the last two bars. -/
theorem crossover_characterization (closes : List ℚ) (limit : ℕ)
    (h2 : 2 ≤ limit) (hlen : limit ≤ closes.length) :
    (check_signal_ema7_30 closes limit = some "LONG" ↔
      ((calc_ema 7 closes).getD (closes.length - 2) 0 <
         (calc_ema 30 closes).getD (closes.length - 2) 0 ∧
       (calc_ema 7 closes).getD (closes.length - 1) 0 >
         (calc_ema 30 closes).getD (closes.length - 1) 0 ∧
       closes.getD (closes.length - 1) 0 > (calc_ema 7 closes).getD (closes.length - 1) 0 ∧
       closes.getD (closes.length - 1) 0 > (calc_ema 30 closes).getD (closes.length - 1) 0)) ∧
    (check_signal_ema7_30 closes limit = some "SHORT" ↔
      ((calc_ema 7 closes).getD (closes.length - 2) 0 >
         (calc_ema 30 closes).getD (closes.length - 2) 0 ∧
       (calc_ema 7 closes).getD (closes.length - 1) 0 <
         (calc_ema 30 closes).getD (closes.length - 1) 0 ∧
       closes.getD (closes.length - 1) 0 < (calc_ema 7 closes).getD (closes.length - 1) 0 ∧
       closes.getD (closes.length - 1) 0 < (calc_ema 30 closes).getD (closes.length - 1) 0)) ∧
    (check_signal_ema7_30 closes limit = none ↔
      (¬((calc_ema 7 closes).getD (closes.length - 2) 0 <
           (calc_ema 30 closes).getD (closes.length - 2) 0 ∧
         (calc_ema 7 closes).getD (closes.length - 1) 0 >
           (calc_ema 30 closes).getD (closes.length - 1) 0 ∧
         closes.getD (closes.length - 1) 0 > (calc_ema 7 closes).getD (closes.length - 1) 0 ∧
         closes.getD (closes.length - 1) 0 > (calc_ema 30 closes).getD (closes.length - 1) 0) ∧
       ¬((calc_ema 7 closes).getD (closes.length - 2) 0 >
           (calc_ema 30 closes).getD (closes.length - 2) 0 ∧
         (calc_ema 7 closes).getD (closes.length - 1) 0 <
           (calc_ema 30 closes).getD (closes.length - 1) 0 ∧
         closes.getD (closes.length - 1) 0 < (calc_ema 7 closes).getD (closes.length - 1) 0 ∧
         closes.getD (closes.length - 1) 0 <
           (calc_ema 30 closes).getD (closes.length - 1) 0))) := by
  unfold check_signal_ema7_30 check_signal_ema7_30_df DataFrame.ofCloses
  dsimp only
  rw [if_neg (not_lt.mpr hlen)]
  split_ifs with hL hS <;> simp_all
  intro h1 h2 h3
  linarith [hL.2.2.2]

/-- Witness for C2: on `[10, 9, 20]` (limit 3) the EMA7 crosses above
the EMA30 at the last bar with the close above both, so the evaluator
answers LONG. -/
theorem crossover_characterization_witness :
    check_signal_ema7_30 [10, 9, 20] 3 = some "LONG" := by
  refine ((crossover_characterization [10, 9, 20] 3 (by norm_num) (by simp)).1).mpr ?_
  norm_num [calc_ema, emaAux, List.getD_cons_succ, List.getD_cons_zero]

/-- C3: on a series at least as long as the (≥ 2) minimum required
length, the momentum evaluator answers no signal whenever RSI(14) is
NaN at either of the last two bars; with both defined it answers
"LONG (RSI)" exactly on an upward EMA9/EMA20 cross with the RSI
dropping from above 55 to at most 55, "SHORT (RSI)" exactly on the
mirror configuration with the 45 band, and no signal otherwise. -/
theorem momentum_characterization (closes : List ℚ) (limit : ℕ)
    (h2 : 2 ≤ limit) (hlen : limit ≤ closes.length) :
    ((calc_rsi closes 14).getD (closes.length - 1) none = none ∨
       (calc_rsi closes 14).getD (closes.length - 2) none = none →
      check_signal_ema9_20_rsi closes limit = none) ∧
    (∀ r1 r2,
      (calc_rsi closes 14).getD (closes.length - 1) none = some r1 →
      (calc_rsi closes 14).getD (closes.length - 2) none = some r2 →
      ((check_signal_ema9_20_rsi closes limit = some "LONG (RSI)" ↔
         ((calc_ema 9 closes).getD (closes.length - 2) 0 <
            (calc_ema 20 closes).getD (closes.length - 2) 0 ∧
          (calc_ema 9 closes).getD (closes.length - 1) 0 >
            (calc_ema 20 closes).getD (closes.length - 1) 0 ∧
          r2 > 55 ∧ r1 ≤ 55)) ∧
       (check_signal_ema9_20_rsi closes limit = some "SHORT (RSI)" ↔
         ((calc_ema 9 closes).getD (closes.length - 2) 0 >
            (calc_ema 20 closes).getD (closes.length - 2) 0 ∧
          (calc_ema 9 closes).getD (closes.length - 1) 0 <
            (calc_ema 20 closes).getD (closes.length - 1) 0 ∧
          r2 < 45 ∧ r1 ≥ 45)) ∧
       (check_signal_ema9_20_rsi closes limit = none ↔
         (¬((calc_ema 9 closes).getD (closes.length - 2) 0 <
              (calc_ema 20 closes).getD (closes.length - 2) 0 ∧
            (calc_ema 9 closes).getD (closes.length - 1) 0 >
              (calc_ema 20 closes).getD (closes.length - 1) 0 ∧
            r2 > 55 ∧ r1 ≤ 55) ∧
          ¬((calc_ema 9 closes).getD (closes.length - 2) 0 >
              (calc_ema 20 closes).getD (closes.length - 2) 0 ∧
            (calc_ema 9 closes).getD (closes.length - 1) 0 <
              (calc_ema 20 closes).getD (closes.length - 1) 0 ∧
            r2 < 45 ∧ r1 ≥ 45))))) := by
  unfold check_signal_ema9_20_rsi check_signal_ema9_20_rsi_df DataFrame.ofCloses
  dsimp only
  rw [if_neg (not_lt.mpr hlen)]
  constructor
  · rintro (h | h)
    · rw [h]
    · rcases hg : (calc_rsi closes 14).getD (closes.length - 1) none with _ | r1
      · rfl
      · rw [h]
  · intro r1 r2 h1 h2
    rw [h1, h2]
    dsimp only
    split_ifs with hA hB
    · simp_all
      intro hb1 _ _
      linarith [hA.1]
    · simp_all
    · simp_all

/-- Witness for C3: on the two-bar series `[1, 2]` (limit 2) the RSI(14)
is still NaN at the last bar, so the momentum evaluator answers no
signal. -/
theorem momentum_characterization_witness :
    check_signal_ema9_20_rsi [1, 2] 2 = none := by
  have t := momentum_characterization [1, 2] 2 (by norm_num) (by simp)
  refine t.1 (Or.inl ?_)
  show (calc_rsi [1, 2] 14).getD 1 none = none
  have hg : (rollingMean 14 (gainList [1, 2])).getD 1 none = none := by
    have hiff := rollingMean_gain_isSome [1, 2] 14 1 (by simp)
    rcases hcase : (rollingMean 14 (gainList [1, 2])).getD 1 none with _ | v
    · rfl
    · rw [hcase] at hiff
      simp at hiff
  rw [calc_rsi_getD [1, 2] 14 1 (by simp)]
  rw [hg]
